import Mathlib

/-!
Shallow embedding of `src/send_strava_goals_to_trmnl.py` (the OAuth token
lifecycle manager: `Config`, `TokenManager`, and the on-disk token store),
together with theorems settling the specification claims about it.

Modelling conventions:
* Wall-clock timestamps and file modification times are rationals (seconds),
  mirroring the float arithmetic of `_needs_refresh`.
* The process environment is an association list of variable names to values.
* The single credentials file is `World.file : Option FileData`; `none`
  models a non-existent file (`os.path.exists` is false).
* The external `json` module (`json.dump` / `json.load`) is modelled by an
  explicit injective line-based codec `serializeToken` / `deserializeToken`;
  a file whose content fails to parse models a `json.JSONDecodeError`.
* External effects (the provider token endpoint, the interactive OAuth
  exchange, the CI environment indicator, write permission on the
  credentials file) live in an `Oracle`; network calls made during a run are
  recorded in an event trace.
* Python exceptions become `Except`: `StravaErr` covers `ConfigError` and
  `AuthError`; `PyError.osError` models an uncaught `OSError`/`IOError`
  escaping from code that does not wrap it.
-/

namespace StravaGoals

/-- The token record (`TokenDict` in the source): the provider's JSON body,
with the two fields the program reads (`access_token`, `refresh_token`)
explicit and any further provider metadata kept as extra key/value pairs. -/
structure TokenDict where
  access_token : String
  refresh_token : String
  extra : List (String × String) := []
deriving DecidableEq, Repr

/-- The exception taxonomy of the source: `ConfigError` and `AuthError`
(both subclasses of `StravaError`), each carrying its message. -/
inductive StravaErr where
  | configError (msg : String)
  | authError (msg : String)
deriving DecidableEq, Repr

/-- Every way a run can fail: a raised `StravaError`, or an uncaught
`OSError` escaping from unguarded I/O (e.g. `_save_token`). -/
inductive PyError where
  | strava (e : StravaErr)
  | osError
deriving DecidableEq, Repr

/-- Whether a `PyError` is an `AuthError` (of any message). -/
def PyError.isAuthError : PyError → Bool
  | .strava (.authError _) => true
  | _ => false

/-- `Config.__init__`: the two credentials plus the constants set in the
constructor (`credentials_file`, `token_refresh_hours`). -/
structure Config where
  client_id : String
  client_secret : String
  credentials_file : String := ".strava-credentials"
  token_refresh_hours : Nat := 6
deriving DecidableEq, Repr

/-- The process environment: variable name / value pairs. -/
def Environ : Type := List (String × String)

/-- The `required` list of `Config.from_environment`. -/
def ENV_REQUIRED : List String := ["STRAVA_CLIENT_ID", "STRAVA_CLIENT_SECRET"]

/-- `Config.from_environment`: collect the required variables missing from
the environment; if any, raise `ConfigError` with a message listing them;
otherwise build the config from the two environment values. -/
def Config.from_environment (env : Environ) : Except StravaErr Config :=
  let missing := ENV_REQUIRED.filter (fun v => (List.lookup v env).isNone)
  if missing.isEmpty then
    .ok { client_id := (List.lookup "STRAVA_CLIENT_ID" env).getD "",
          client_secret := (List.lookup "STRAVA_CLIENT_SECRET" env).getD "" }
  else
    .error (.configError
      ("Missing required environment variables: " ++ String.intercalate ", " missing
        ++ "\nPlease set in .env: STRAVA_CLIENT_ID, STRAVA_CLIENT_SECRET"))

/-! ### Token record codec

Models the external `json` module's serialization of the token dict to the
credentials file. The concrete format (backslash-escaped fields, one per
line) stands in for JSON: what matters to the program is that writing a
record produces a string from which reading recovers the record, and that
strings outside the format fail to parse (a `JSONDecodeError`). -/

/-- Escape one character: backslash and newline get two-character escapes,
everything else is literal. -/
def escC (c : Char) : List Char :=
  if c = '\\' then ['\\', '\\']
  else if c = '\n' then ['\\', 'n']
  else [c]

/-- Escape a field so that it contains no newline. -/
def escapeL (l : List Char) : List Char :=
  l.foldr (fun c acc => escC c ++ acc) []

/-- Undo `escapeL`; fails on a dangling or unknown escape. -/
def unescapeL : List Char → Option (List Char)
  | [] => some []
  | c :: rest =>
    if c = '\\' then
      match rest with
      | [] => none
      | d :: rest' =>
        if d = '\\' then (unescapeL rest').map (fun l => '\\' :: l)
        else if d = 'n' then (unescapeL rest').map (fun l => '\n' :: l)
        else none
    else (unescapeL rest).map (fun l => c :: l)

/-- Split a character list at newlines (always at least one piece). -/
def splitNL : List Char → List (List Char)
  | [] => [[]]
  | c :: rest =>
    if c = '\n' then [] :: splitNL rest
    else
      match splitNL rest with
      | [] => [[c]]
      | l :: ls => (c :: l) :: ls

/-- Join pieces with newlines (left inverse of `splitNL` on newline-free
pieces). -/
def joinNL : List (List Char) → List Char
  | [] => []
  | [l] => l
  | l :: ls => l ++ '\n' :: joinNL ls

/-- The extra metadata pairs, flattened to an alternating key/value field
list. -/
def flattenExtra : List (String × String) → List (List Char)
  | [] => []
  | (k, v) :: rest => k.data :: v.data :: flattenExtra rest

/-- Rebuild key/value pairs from an alternating field list; fails on an odd
number of fields. -/
def unflattenExtra : List (List Char) → Option (List (String × String))
  | [] => some []
  | [_] => none
  | k :: v :: rest => (unflattenExtra rest).map (fun e => (String.mk k, String.mk v) :: e)

/-- Unescape every field, failing if any fails. -/
def unescapeAll : List (List Char) → Option (List (List Char))
  | [] => some []
  | l :: ls =>
    match unescapeL l, unescapeAll ls with
    | some l', some ls' => some (l' :: ls')
    | _, _ => none

/-- `json.dump(token, f)`: the string written to the credentials file for a
token record — the escaped fields (access token, refresh token, then the
flattened extra pairs), one per line. -/
def serializeToken (t : TokenDict) : String :=
  String.mk (joinNL
    ((t.access_token.data :: t.refresh_token.data :: flattenExtra t.extra).map escapeL))

/-- `json.load(f)`: parse the file content back into a token record; `none`
models a `json.JSONDecodeError`. -/
def deserializeToken (s : String) : Option TokenDict :=
  match unescapeAll (splitNL s.data) with
  | none => none
  | some fields =>
    match fields with
    | a :: r :: rest =>
      match unflattenExtra rest with
      | none => none
      | some extra =>
        some { access_token := String.mk a, refresh_token := String.mk r, extra := extra }
    | _ => none

/-! #### Codec round-trip lemmas -/

theorem escapeL_cons (c : Char) (l : List Char) :
    escapeL (c :: l) = escC c ++ escapeL l := rfl

theorem noNL_escC (c : Char) : '\n' ∉ escC c := by
  unfold escC
  split
  · simp
  · split
    · simp
    · rename_i h1 h2
      simp [Ne.symm h2]

theorem noNL_escapeL (l : List Char) : '\n' ∉ escapeL l := by
  induction l with
  | nil => simp [escapeL]
  | cons c rest ih =>
    rw [escapeL_cons]
    intro hmem
    rcases List.mem_append.mp hmem with h | h
    · exact noNL_escC c h
    · exact ih h

theorem unescapeL_escapeL (l : List Char) : unescapeL (escapeL l) = some l := by
  induction l with
  | nil => rfl
  | cons c rest ih =>
    rw [escapeL_cons]
    by_cases hb : c = '\\'
    · subst hb
      simp [escC, unescapeL, ih]
    · by_cases hn : c = '\n'
      · subst hn
        simp [escC, unescapeL, ih]
      · have hesc : escC c = [c] := by simp [escC, hb, hn]
        rw [hesc, List.singleton_append]
        unfold unescapeL
        simp [hb, ih]

theorem splitNL_of_noNL (l : List Char) (h : '\n' ∉ l) : splitNL l = [l] := by
  induction l with
  | nil => rfl
  | cons c rest ih =>
    have hc : c ≠ '\n' := fun hc => h (hc ▸ List.mem_cons_self c rest)
    have hrest : '\n' ∉ rest := fun hm => h (List.mem_cons_of_mem c hm)
    simp [splitNL, hc, ih hrest]

theorem splitNL_append (l xs : List Char) (h : '\n' ∉ l) :
    splitNL (l ++ '\n' :: xs) = l :: splitNL xs := by
  induction l with
  | nil => simp [splitNL]
  | cons c rest ih =>
    have hc : c ≠ '\n' := fun hc => h (hc ▸ List.mem_cons_self c rest)
    have hrest : '\n' ∉ rest := fun hm => h (List.mem_cons_of_mem c hm)
    simp only [List.cons_append, splitNL, if_neg hc, List.append_eq, ih hrest]

theorem splitNL_joinNL (ls : List (List Char)) (hne : ls ≠ [])
    (h : ∀ l ∈ ls, '\n' ∉ l) : splitNL (joinNL ls) = ls := by
  induction ls with
  | nil => exact absurd rfl hne
  | cons l rest ih =>
    match rest with
    | [] => exact splitNL_of_noNL l (h l (List.mem_cons_self l []))
    | l' :: rest' =>
      have hjoin : joinNL (l :: l' :: rest') = l ++ '\n' :: joinNL (l' :: rest') := rfl
      rw [hjoin, splitNL_append l _ (h l (List.mem_cons_self l _))]
      rw [ih (by simp) (fun m hm => h m (List.mem_cons_of_mem l hm))]

theorem unescapeAll_map_escapeL (ls : List (List Char)) :
    unescapeAll (ls.map escapeL) = some ls := by
  induction ls with
  | nil => rfl
  | cons l rest ih => simp [unescapeAll, unescapeL_escapeL, ih]

theorem unflattenExtra_flattenExtra (e : List (String × String)) :
    unflattenExtra (flattenExtra e) = some e := by
  induction e with
  | nil => rfl
  | cons kv rest ih =>
    cases kv with
    | mk k v => simp [flattenExtra, unflattenExtra, ih]

theorem deserializeToken_serializeToken (t : TokenDict) :
    deserializeToken (serializeToken t) = some t := by
  cases t with
  | mk a r e =>
    have hfields :
        splitNL (joinNL ((a.data :: r.data :: flattenExtra e).map escapeL)) =
          (a.data :: r.data :: flattenExtra e).map escapeL :=
      splitNL_joinNL _ (by simp) (by
        intro m hm
        rcases List.mem_map.mp hm with ⟨x, _, hx⟩
        exact hx ▸ noNL_escapeL x)
    have hdata : (serializeToken ⟨a, r, e⟩).data
        = joinNL ((a.data :: r.data :: flattenExtra e).map escapeL) := rfl
    simp only [deserializeToken, hdata, hfields, unescapeAll_map_escapeL,
      unflattenExtra_flattenExtra]

/-! ### World, oracle, and the token manager state machine -/

/-- State of the credentials file when it exists: its raw content, its
modification time (`os.path.getmtime`), and whether opening it for reading
succeeds (`readable := false` models an `IOError` on read). -/
structure FileData where
  content : String
  mtime : ℚ
  readable : Bool := true
deriving DecidableEq, Repr

/-- The mutable world a run sees: the credentials file (or its absence) and
the current wall-clock time `dt.datetime.now().timestamp()` in seconds. -/
structure World where
  file : Option FileData
  now : ℚ
deriving DecidableEq, Repr

/-- The provider token endpoint's answer to a refresh request: an `ok`
response with a JSON body, or a non-success status (`response.ok` false). -/
inductive RefreshResponse where
  | success (body : TokenDict)
  | failure
deriving DecidableEq, Repr

/-- The external collaborators of a run: the provider's refresh endpoint
(as a function of the submitted refresh token), whether the `CI` environment
indicator is set (truthy), the outcome of the interactive code exchange
(`none` models a falsy token from `exchange_code_for_token`), and whether
opening the credentials file for writing succeeds. -/
structure Oracle where
  refresh : String → RefreshResponse
  ci : Bool
  oauthToken : Option TokenDict
  writeOk : Bool := true

/-- Network / provider interactions observable during a run. -/
inductive Event where
  | refreshCall (refreshToken : String)
  | oauthExchange
deriving DecidableEq, Repr

/-- `TokenManager._perform_oauth_flow`: in CI raise `AuthError` before any
interaction; otherwise run the interactive exchange, raising `AuthError`
when it yields no usable token. -/
def _perform_oauth_flow (o : Oracle) : Except StravaErr TokenDict × List Event :=
  if o.ci then
    (.error (.authError "Running in CI environment, please configure token manually first"),
      [])
  else
    match o.oauthToken with
    | none => (.error (.authError "Failed to obtain access token"), [.oauthExchange])
    | some t => (.ok t, [.oauthExchange])

/-- `TokenManager._needs_refresh`: hours elapsed since the credential
file's modification time, strictly compared against the threshold. (The
token argument is unused, as in the source; the file exists whenever this
is reached.) -/
def _needs_refresh (cfg : Config) (w : World) (_token : TokenDict) : Bool :=
  match w.file with
  | some fd => decide ((w.now - fd.mtime) / 3600 > (cfg.token_refresh_hours : ℚ))
  | none => false

/-- `TokenManager._refresh_token`: POST the stored refresh token to the
provider token endpoint; a non-ok response raises `AuthError`, an ok
response yields its JSON body. Exactly one endpoint call either way. -/
def _refresh_token (o : Oracle) (refresh_token : String) :
    Except StravaErr TokenDict × List Event :=
  match o.refresh refresh_token with
  | .failure => (.error (.authError "Failed to refresh token"), [.refreshCall refresh_token])
  | .success body => (.ok body, [.refreshCall refresh_token])

/-- `TokenManager._save_token`: open the credentials file for writing
(truncating any prior content) and dump the record. The open is not
guarded, so an I/O failure escapes as an uncaught `OSError`. -/
def _save_token (o : Oracle) (w : World) (token : TokenDict) : Except PyError World :=
  if o.writeOk then
    .ok { w with file := some { content := serializeToken token, mtime := w.now } }
  else
    .error .osError

/-- `TokenManager._load_token`: read and parse the credentials file;
`IOError` (missing or unreadable file) and `json.JSONDecodeError`
(unparsable content) are both converted to `AuthError`. -/
def _load_token (w : World) : Except StravaErr TokenDict :=
  match w.file with
  | none => .error (.authError "Failed to load credentials: IOError")
  | some fd =>
    if fd.readable then
      match deserializeToken fd.content with
      | some t => .ok t
      | none => .error (.authError "Failed to load credentials: JSONDecodeError")
    else .error (.authError "Failed to load credentials: IOError")

/-- Outcome of one `get_valid_token` invocation: the returned record or the
raised exception, the world afterwards, and the provider interactions that
occurred. -/
structure RunResult where
  result : Except PyError TokenDict
  world : World
  events : List Event

/-- `TokenManager.get_valid_token`: if the credentials file does not exist,
run the OAuth flow, persist and return its token; otherwise load the stored
record, refresh-and-persist when stale, and return. -/
def get_valid_token (cfg : Config) (o : Oracle) (w : World) : RunResult :=
  match w.file with
  | none =>
    match _perform_oauth_flow o with
    | (.error e, ev) => ⟨.error (.strava e), w, ev⟩
    | (.ok token, ev) =>
      match _save_token o w token with
      | .error e => ⟨.error e, w, ev⟩
      | .ok w' => ⟨.ok token, w', ev⟩
  | some _ =>
    match _load_token w with
    | .error e => ⟨.error (.strava e), w, []⟩
    | .ok token =>
      if _needs_refresh cfg w token then
        match _refresh_token o token.refresh_token with
        | (.error e, ev) => ⟨.error (.strava e), w, ev⟩
        | (.ok token', ev) =>
          match _save_token o w token' with
          | .error e => ⟨.error e, w, ev⟩
          | .ok w' => ⟨.ok token', w', ev⟩
      else ⟨.ok token, w, []⟩

/-! ### Run lemmas: the behavior of `get_valid_token` on each path -/

/-- Loading succeeds on a readable file whose content parses. -/
theorem load_token_ok (w : World) (fd : FileData) (t : TokenDict)
    (hf : w.file = some fd) (hr : fd.readable = true)
    (hd : deserializeToken fd.content = some t) :
    _load_token w = .ok t := by
  simp [_load_token, hf, hr, hd]

/-- The refresh check is false whenever the elapsed hours do not exceed the
threshold. -/
theorem needs_refresh_false (cfg : Config) (w : World) (fd : FileData) (t : TokenDict)
    (hf : w.file = some fd)
    (hage : ¬ (w.now - fd.mtime) / 3600 > (cfg.token_refresh_hours : ℚ)) :
    _needs_refresh cfg w t = false := by
  simp only [_needs_refresh, hf, decide_eq_false_iff_not]
  exact hage

/-- The refresh check is true whenever the elapsed hours exceed the
threshold. -/
theorem needs_refresh_true (cfg : Config) (w : World) (fd : FileData) (t : TokenDict)
    (hf : w.file = some fd)
    (hage : (w.now - fd.mtime) / 3600 > (cfg.token_refresh_hours : ℚ)) :
    _needs_refresh cfg w t = true := by
  simp only [_needs_refresh, hf, decide_eq_true_eq]
  exact hage

/-- Cached path: file exists, parses, and is fresh — the loaded record is
returned, the world is untouched, and no provider interaction happens. -/
theorem run_cached (cfg : Config) (o : Oracle) (w : World) (fd : FileData) (t : TokenDict)
    (hf : w.file = some fd) (hr : fd.readable = true)
    (hd : deserializeToken fd.content = some t)
    (hage : ¬ (w.now - fd.mtime) / 3600 > (cfg.token_refresh_hours : ℚ)) :
    get_valid_token cfg o w = ⟨.ok t, w, []⟩ := by
  simp [get_valid_token, hf, load_token_ok w fd t hf hr hd,
    needs_refresh_false cfg w fd t hf hage]

/-- Refresh path, provider success: the endpoint is called exactly once
with the stored refresh token, its body is persisted and returned. -/
theorem run_refresh_success (cfg : Config) (o : Oracle) (w : World) (fd : FileData)
    (t t' : TokenDict)
    (hf : w.file = some fd) (hr : fd.readable = true)
    (hd : deserializeToken fd.content = some t)
    (hage : (w.now - fd.mtime) / 3600 > (cfg.token_refresh_hours : ℚ))
    (hresp : o.refresh t.refresh_token = .success t')
    (hwr : o.writeOk = true) :
    get_valid_token cfg o w =
      ⟨.ok t', { w with file := some ⟨serializeToken t', w.now, true⟩ },
        [.refreshCall t.refresh_token]⟩ := by
  simp [get_valid_token, hf, load_token_ok w fd t hf hr hd,
    needs_refresh_true cfg w fd t hf hage, _refresh_token, hresp, _save_token, hwr]

/-- Refresh path, provider failure: `AuthError` is raised after exactly one
endpoint call and the world is left untouched. -/
theorem run_refresh_failure (cfg : Config) (o : Oracle) (w : World) (fd : FileData)
    (t : TokenDict)
    (hf : w.file = some fd) (hr : fd.readable = true)
    (hd : deserializeToken fd.content = some t)
    (hage : (w.now - fd.mtime) / 3600 > (cfg.token_refresh_hours : ℚ))
    (hresp : o.refresh t.refresh_token = .failure) :
    get_valid_token cfg o w =
      ⟨.error (.strava (.authError "Failed to refresh token")), w,
        [.refreshCall t.refresh_token]⟩ := by
  simp [get_valid_token, hf, load_token_ok w fd t hf hr hd,
    needs_refresh_true cfg w fd t hf hage, _refresh_token, hresp]

/-- No-file path in CI: `AuthError` before any provider interaction. -/
theorem run_no_file_ci (cfg : Config) (o : Oracle) (w : World)
    (hf : w.file = none) (hci : o.ci = true) :
    get_valid_token cfg o w =
      ⟨.error (.strava (.authError
          "Running in CI environment, please configure token manually first")), w, []⟩ := by
  simp [get_valid_token, hf, _perform_oauth_flow, hci]

/-! ### Sample data for the concrete witnesses -/

/-- A sample stored token record. -/
def tokA : TokenDict := { access_token := "old-access", refresh_token := "old-refresh" }

/-- A sample provider-returned token record. -/
def tokB : TokenDict := { access_token := "new-access", refresh_token := "new-refresh" }

/-- A sample configuration (threshold: the default 6 hours). -/
def cfg0 : Config := { client_id := "42", client_secret := "hush" }

/-! ### The claims -/

/-- C1: for a persisted record strictly older than the refresh threshold,
`get_valid_token` calls the provider refresh endpoint exactly once with the
stored refresh token, persists the record of a successful response, and
returns that new record. -/
theorem C1_stale_refreshes_once_and_persists (cfg : Config) (o : Oracle) (w : World)
    (fd : FileData) (t t' : TokenDict)
    (hf : w.file = some fd) (hr : fd.readable = true)
    (hd : deserializeToken fd.content = some t)
    (hage : (w.now - fd.mtime) / 3600 > (cfg.token_refresh_hours : ℚ))
    (hresp : o.refresh t.refresh_token = .success t')
    (hwr : o.writeOk = true) :
    (get_valid_token cfg o w).result = .ok t' ∧
    (get_valid_token cfg o w).events = [Event.refreshCall t.refresh_token] ∧
    (get_valid_token cfg o w).world.file = some ⟨serializeToken t', w.now, true⟩ ∧
    _load_token (get_valid_token cfg o w).world = .ok t' := by
  rw [run_refresh_success cfg o w fd t t' hf hr hd hage hresp hwr]
  exact ⟨rfl, rfl, rfl,
    load_token_ok _ ⟨serializeToken t', w.now, true⟩ t' rfl rfl
      (deserializeToken_serializeToken t')⟩

/-- Witness for C1 at a concrete stale store (age 7h, threshold 6h). -/
theorem C1_stale_refreshes_once_and_persists_witness :
    (get_valid_token cfg0 ⟨fun _ => .success tokB, false, none, true⟩
        ⟨some ⟨serializeToken tokA, 0, true⟩, 25200⟩).result = .ok tokB ∧
    (get_valid_token cfg0 ⟨fun _ => .success tokB, false, none, true⟩
        ⟨some ⟨serializeToken tokA, 0, true⟩, 25200⟩).events =
      [Event.refreshCall tokA.refresh_token] ∧
    (get_valid_token cfg0 ⟨fun _ => .success tokB, false, none, true⟩
        ⟨some ⟨serializeToken tokA, 0, true⟩, 25200⟩).world.file =
      some ⟨serializeToken tokB, (25200 : ℚ), true⟩ ∧
    _load_token (get_valid_token cfg0 ⟨fun _ => .success tokB, false, none, true⟩
        ⟨some ⟨serializeToken tokA, 0, true⟩, 25200⟩).world = .ok tokB :=
  C1_stale_refreshes_once_and_persists cfg0 _ _ _ tokA tokB rfl rfl
    (deserializeToken_serializeToken tokA) (by norm_num [cfg0]) rfl rfl

/-- C2: for a persisted record younger than the refresh threshold,
`get_valid_token` returns the loaded record unchanged, performs no network
call, and performs no write (the world is untouched). -/
theorem C2_fresh_returned_unchanged (cfg : Config) (o : Oracle) (w : World)
    (fd : FileData) (t : TokenDict)
    (hf : w.file = some fd) (hr : fd.readable = true)
    (hd : deserializeToken fd.content = some t)
    (hage : (w.now - fd.mtime) / 3600 < (cfg.token_refresh_hours : ℚ)) :
    get_valid_token cfg o w = ⟨.ok t, w, []⟩ :=
  run_cached cfg o w fd t hf hr hd (not_lt_of_gt hage)

/-- Witness for C2 at a concrete fresh store (age 5h, threshold 6h). -/
theorem C2_fresh_returned_unchanged_witness :
    get_valid_token cfg0 ⟨fun _ => .failure, false, none, true⟩
        ⟨some ⟨serializeToken tokA, 0, true⟩, 18000⟩ =
      ⟨.ok tokA, ⟨some ⟨serializeToken tokA, 0, true⟩, 18000⟩, []⟩ :=
  C2_fresh_returned_unchanged cfg0 _ _ _ tokA rfl rfl
    (deserializeToken_serializeToken tokA) (by norm_num [cfg0])

/-- C3: for a stale persisted record, a non-success refresh response makes
`get_valid_token` fail with `AuthError`, leaving the previously persisted
record untouched and still readable afterward. -/
theorem C3_refresh_failure_leaves_store (cfg : Config) (o : Oracle) (w : World)
    (fd : FileData) (t : TokenDict)
    (hf : w.file = some fd) (hr : fd.readable = true)
    (hd : deserializeToken fd.content = some t)
    (hage : (w.now - fd.mtime) / 3600 > (cfg.token_refresh_hours : ℚ))
    (hresp : o.refresh t.refresh_token = .failure) :
    (get_valid_token cfg o w).result =
      .error (.strava (.authError "Failed to refresh token")) ∧
    (get_valid_token cfg o w).world = w ∧
    _load_token (get_valid_token cfg o w).world = .ok t := by
  rw [run_refresh_failure cfg o w fd t hf hr hd hage hresp]
  exact ⟨rfl, rfl, load_token_ok w fd t hf hr hd⟩

/-- Witness for C3 at a concrete stale store with a failing endpoint. -/
theorem C3_refresh_failure_leaves_store_witness :
    (get_valid_token cfg0 ⟨fun _ => .failure, false, none, true⟩
        ⟨some ⟨serializeToken tokA, 0, true⟩, 25200⟩).result =
      .error (.strava (.authError "Failed to refresh token")) ∧
    (get_valid_token cfg0 ⟨fun _ => .failure, false, none, true⟩
        ⟨some ⟨serializeToken tokA, 0, true⟩, 25200⟩).world =
      ⟨some ⟨serializeToken tokA, 0, true⟩, 25200⟩ ∧
    _load_token (get_valid_token cfg0 ⟨fun _ => .failure, false, none, true⟩
        ⟨some ⟨serializeToken tokA, 0, true⟩, 25200⟩).world = .ok tokA :=
  C3_refresh_failure_leaves_store cfg0 _ _ _ tokA rfl rfl
    (deserializeToken_serializeToken tokA) (by norm_num [cfg0]) rfl

/-- C4: on every path of `get_valid_token` that obtains its record from the
authorization flow or from the refresh flow (the paths with a provider
interaction in the trace), the returned record has been persisted to the
store. -/
theorem C4_flow_token_persisted (cfg : Config) (o : Oracle) (w : World) (t : TokenDict)
    (hok : (get_valid_token cfg o w).result = .ok t)
    (hev : (get_valid_token cfg o w).events ≠ []) :
    (get_valid_token cfg o w).world.file = some ⟨serializeToken t, w.now, true⟩ := by
  cases hf : w.file with
  | none =>
    cases hci : o.ci with
    | true => simp [get_valid_token, hf, _perform_oauth_flow, hci] at hok
    | false =>
      cases hoa : o.oauthToken with
      | none => simp [get_valid_token, hf, _perform_oauth_flow, hci, hoa] at hok
      | some t0 =>
        cases hwr : o.writeOk with
        | false =>
          simp [get_valid_token, hf, _perform_oauth_flow, hci, hoa, _save_token, hwr] at hok
        | true =>
          simp only [get_valid_token, hf, _perform_oauth_flow, hci, Bool.false_eq_true,
            if_neg, ite_false, hoa, _save_token, hwr, ite_true] at hok ⊢
          simp only [Except.ok.injEq] at hok
          subst hok
          rfl
  | some fd =>
    cases hload : _load_token w with
    | error e => simp [get_valid_token, hf, hload] at hok
    | ok t0 =>
      cases hnr : _needs_refresh cfg w t0 with
      | false => simp [get_valid_token, hf, hload, hnr] at hev
      | true =>
        cases hresp : o.refresh t0.refresh_token with
        | failure =>
          simp [get_valid_token, hf, hload, hnr, _refresh_token, hresp] at hok
        | success t1 =>
          cases hwr : o.writeOk with
          | false =>
            simp [get_valid_token, hf, hload, hnr, _refresh_token, hresp,
              _save_token, hwr] at hok
          | true =>
            simp only [get_valid_token, hf, hload, hnr, _refresh_token, hresp,
              _save_token, hwr, ite_true] at hok ⊢
            simp only [Except.ok.injEq] at hok
            subst hok
            rfl

/-- Witness for C4: the refresh path at a concrete stale store. -/
theorem C4_flow_token_persisted_witness :
    (get_valid_token cfg0 ⟨fun _ => .success tokB, false, none, true⟩
        ⟨some ⟨serializeToken tokA, 0, true⟩, 25200⟩).world.file =
      some ⟨serializeToken tokB, (25200 : ℚ), true⟩ :=
  C4_flow_token_persisted cfg0 ⟨fun _ => .success tokB, false, none, true⟩
    ⟨some ⟨serializeToken tokA, 0, true⟩, 25200⟩ tokB
    (by rw [run_refresh_success cfg0 _ _ ⟨serializeToken tokA, 0, true⟩ tokA tokB rfl rfl
          (deserializeToken_serializeToken tokA) (by norm_num [cfg0]) rfl rfl])
    (by rw [run_refresh_success cfg0 _ _ ⟨serializeToken tokA, 0, true⟩ tokA tokB rfl rfl
          (deserializeToken_serializeToken tokA) (by norm_num [cfg0]) rfl rfl]
        simp)

/-- C5: with no persisted record and the CI indicator set,
`get_valid_token` fails with `AuthError` before any provider interaction
(in particular, no network refresh call), leaving the world untouched. -/
theorem C5_ci_no_record_auth_error (cfg : Config) (o : Oracle) (w : World)
    (hf : w.file = none) (hci : o.ci = true) :
    (get_valid_token cfg o w).result =
      .error (.strava (.authError
        "Running in CI environment, please configure token manually first")) ∧
    (get_valid_token cfg o w).events = [] ∧
    (get_valid_token cfg o w).world = w := by
  rw [run_no_file_ci cfg o w hf hci]
  exact ⟨rfl, rfl, rfl⟩

/-- Witness for C5 at a concrete empty store in CI. -/
theorem C5_ci_no_record_auth_error_witness :
    (get_valid_token cfg0 ⟨fun _ => .success tokB, true, none, true⟩
        ⟨none, 0⟩).result =
      .error (.strava (.authError
        "Running in CI environment, please configure token manually first")) ∧
    (get_valid_token cfg0 ⟨fun _ => .success tokB, true, none, true⟩
        ⟨none, 0⟩).events = [] ∧
    (get_valid_token cfg0 ⟨fun _ => .success tokB, true, none, true⟩
        ⟨none, 0⟩).world = ⟨none, 0⟩ :=
  C5_ci_no_record_auth_error cfg0 _ _ rfl rfl

set_option maxRecDepth 8000 in
/-- C6: with both required client-credential variables present,
`Config.from_environment` returns a `Config` carrying exactly those two
values; with any required variable absent, it fails with a `ConfigError`
whose message names every missing variable. -/
theorem C6_config_from_environment (env : Environ) :
    (∀ cid cs, List.lookup "STRAVA_CLIENT_ID" env = some cid →
        List.lookup "STRAVA_CLIENT_SECRET" env = some cs →
        Config.from_environment env =
          .ok { client_id := cid, client_secret := cs }) ∧
    ((List.lookup "STRAVA_CLIENT_ID" env = none ∨
        List.lookup "STRAVA_CLIENT_SECRET" env = none) →
      ∃ msg, Config.from_environment env = .error (.configError msg) ∧
        ∀ v ∈ ENV_REQUIRED, List.lookup v env = none → v.data <:+: msg.data) := by
  constructor
  · intro cid cs h1 h2
    simp [Config.from_environment, ENV_REQUIRED, List.filter, h1, h2]
  · intro hmiss
    have hveq : ∀ v, v ∈ ENV_REQUIRED →
        v = "STRAVA_CLIENT_ID" ∨ v = "STRAVA_CLIENT_SECRET" := by
      intro v hv
      simpa [ENV_REQUIRED] using hv
    cases h1 : List.lookup "STRAVA_CLIENT_ID" env with
    | none =>
      cases h2 : List.lookup "STRAVA_CLIENT_SECRET" env with
      | none =>
        have hmissing : ENV_REQUIRED.filter (fun v => (List.lookup v env).isNone) =
            ["STRAVA_CLIENT_ID", "STRAVA_CLIENT_SECRET"] := by
          simp [ENV_REQUIRED, List.filter, h1, h2]
        refine ⟨"Missing required environment variables: STRAVA_CLIENT_ID, STRAVA_CLIENT_SECRET\nPlease set in .env: STRAVA_CLIENT_ID, STRAVA_CLIENT_SECRET", ?_, ?_⟩
        · simp only [Config.from_environment, hmissing]
          rfl
        · intro v hv _
          rcases hveq v hv with rfl | rfl <;> decide
      | some cs =>
        have hmissing : ENV_REQUIRED.filter (fun v => (List.lookup v env).isNone) =
            ["STRAVA_CLIENT_ID"] := by
          simp [ENV_REQUIRED, List.filter, h1, h2]
        refine ⟨"Missing required environment variables: STRAVA_CLIENT_ID\nPlease set in .env: STRAVA_CLIENT_ID, STRAVA_CLIENT_SECRET", ?_, ?_⟩
        · simp only [Config.from_environment, hmissing]
          rfl
        · intro v hv _
          rcases hveq v hv with rfl | rfl <;> decide
    | some cid =>
      cases h2 : List.lookup "STRAVA_CLIENT_SECRET" env with
      | none =>
        have hmissing : ENV_REQUIRED.filter (fun v => (List.lookup v env).isNone) =
            ["STRAVA_CLIENT_SECRET"] := by
          simp [ENV_REQUIRED, List.filter, h1, h2]
        refine ⟨"Missing required environment variables: STRAVA_CLIENT_SECRET\nPlease set in .env: STRAVA_CLIENT_ID, STRAVA_CLIENT_SECRET", ?_, ?_⟩
        · simp only [Config.from_environment, hmissing]
          rfl
        · intro v hv _
          rcases hveq v hv with rfl | rfl <;> decide
      | some cs =>
        rw [h1, h2] at hmiss
        rcases hmiss with h | h <;> exact absurd h (by simp)

/-- Witness for C6 at a concrete complete environment. -/
theorem C6_config_from_environment_witness :
    Config.from_environment
        [("STRAVA_CLIENT_ID", "42"), ("STRAVA_CLIENT_SECRET", "hush")] =
      .ok { client_id := "42", client_secret := "hush" } :=
  (C6_config_from_environment
      [("STRAVA_CLIENT_ID", "42"), ("STRAVA_CLIENT_SECRET", "hush")]).1
    "42" "hush" rfl rfl

/-- C7: writing any token record to the store and reading it back yields
field-for-field equal data. -/
theorem C7_write_read_roundtrip (o : Oracle) (w : World) (t : TokenDict)
    (hwr : o.writeOk = true) :
    ∃ w', _save_token o w t = .ok w' ∧ _load_token w' = .ok t := by
  refine ⟨{ w with file := some ⟨serializeToken t, w.now, true⟩ }, ?_, ?_⟩
  · simp [_save_token, hwr]
  · exact load_token_ok _ ⟨serializeToken t, w.now, true⟩ t rfl rfl
      (deserializeToken_serializeToken t)

/-- Witness for C7 at a concrete record and store. -/
theorem C7_write_read_roundtrip_witness :
    ∃ w', _save_token ⟨fun _ => .failure, false, none, true⟩ ⟨none, 0⟩ tokA = .ok w' ∧
      _load_token w' = .ok tokA :=
  C7_write_read_roundtrip ⟨fun _ => .failure, false, none, true⟩ ⟨none, 0⟩ tokA rfl

/-- C8: reading the store fails with `AuthError` (and no other error, and
no partial record) whenever the underlying file is unreadable or its
content is malformed. -/
theorem C8_load_failure_is_auth_error (w : World) (fd : FileData)
    (hf : w.file = some fd)
    (hbad : fd.readable = false ∨ deserializeToken fd.content = none) :
    ∃ msg, _load_token w = .error (.authError msg) := by
  cases hr : fd.readable with
  | false => exact ⟨"Failed to load credentials: IOError", by simp [_load_token, hf, hr]⟩
  | true =>
    rcases hbad with h | h
    · rw [hr] at h
      cases h
    · exact ⟨"Failed to load credentials: JSONDecodeError",
        by simp [_load_token, hf, hr, h]⟩

/-- Witness for C8 at a concrete malformed store (a lone backslash is not
in the codec's image). -/
theorem C8_load_failure_is_auth_error_witness :
    ∃ msg, _load_token ⟨some ⟨"\\", 0, true⟩, 0⟩ = .error (.authError msg) :=
  C8_load_failure_is_auth_error ⟨some ⟨"\\", 0, true⟩, 0⟩ ⟨"\\", 0, true⟩ rfl
    (Or.inr (by decide))

/-- C9 counterexample: at a store whose file cannot be opened for writing,
`_save_token` fails with an uncaught `OSError`, not with `AuthError` — the
write is not guarded by any exception handler. -/
theorem C9_counterexample_save_oserror :
    _save_token ⟨fun _ => .failure, false, none, false⟩ ⟨none, 0⟩ tokA =
      .error .osError ∧
    PyError.osError.isAuthError = false :=
  ⟨rfl, rfl⟩

/-- C9 (amended): the store write persists the full record, overwriting any
prior content; an I/O failure during the write propagates as the underlying
OS error, which is not an `AuthError`. -/
theorem C9_save_overwrites_oserror_uncaught (o : Oracle) (w : World) (t : TokenDict) :
    (o.writeOk = true →
      _save_token o w t = .ok { w with file := some ⟨serializeToken t, w.now, true⟩ }) ∧
    (o.writeOk = false →
      _save_token o w t = .error .osError ∧ PyError.osError.isAuthError = false) := by
  constructor <;> intro h <;> simp [_save_token, h, PyError.isAuthError]

/-- Witness for the amended C9: a concrete overwrite of prior content. -/
theorem C9_save_overwrites_oserror_uncaught_witness :
    _save_token ⟨fun _ => .failure, false, none, true⟩
        ⟨some ⟨"stale prior content", 1, true⟩, (5 : ℚ)⟩ tokA =
      .ok ⟨some ⟨serializeToken tokA, (5 : ℚ), true⟩, (5 : ℚ)⟩ :=
  (C9_save_overwrites_oserror_uncaught ⟨fun _ => .failure, false, none, true⟩
      ⟨some ⟨"stale prior content", 1, true⟩, (5 : ℚ)⟩ tokA).1 rfl

/-- C10: when the record's age in hours equals the threshold exactly, the
strict comparison makes the refresh check false, so `get_valid_token`
returns the loaded record unchanged with no refresh. -/
theorem C10_age_equal_threshold_no_refresh (cfg : Config) (o : Oracle) (w : World)
    (fd : FileData) (t : TokenDict)
    (hf : w.file = some fd) (hr : fd.readable = true)
    (hd : deserializeToken fd.content = some t)
    (hage : (w.now - fd.mtime) / 3600 = (cfg.token_refresh_hours : ℚ)) :
    get_valid_token cfg o w = ⟨.ok t, w, []⟩ :=
  run_cached cfg o w fd t hf hr hd (by rw [hage]; exact lt_irrefl _)

/-- Witness for C10 at a concrete store of age exactly 6h. -/
theorem C10_age_equal_threshold_no_refresh_witness :
    get_valid_token cfg0 ⟨fun _ => .failure, false, none, true⟩
        ⟨some ⟨serializeToken tokA, 0, true⟩, 21600⟩ =
      ⟨.ok tokA, ⟨some ⟨serializeToken tokA, 0, true⟩, 21600⟩, []⟩ :=
  C10_age_equal_threshold_no_refresh cfg0 _ _ _ tokA rfl rfl
    (deserializeToken_serializeToken tokA) (by norm_num [cfg0])

end StravaGoals
